import Mathlib

/-!
Verification of the permission-gated tool execution and error-recovery
subsystem of the agent repository.  The Python sources under
`src/mcp_server` and `src/agent` are shallowly embedded: each tool method
or permission check becomes a total Lean function over explicit state
(filesystems are association lists from path to content, the job table is
an association list from job id to job state, the retry ledger is an
association list from operation id to count), and `Dict[str, Any]` return
values become association lists from `String` to a Python-value type
`PyVal`.  Raised exceptions become `Except`/explicit error values.  The
dict values occurring in the tool layer are scalars, lists of strings,
flat dicts of scalars, lists of such dicts, and (in recovery directives)
an embedded error dict; `PyVal` is stratified accordingly.
-/

/-- A scalar Python value (string, int, bool, `None`). -/
inductive PyPrim where
  | str (s : String)
  | int (n : Int)
  | bool (b : Bool)
  | none
deriving Repr, DecidableEq

/-- Embedding of the error dicts consumed by the error-recovery system
(`error: Dict[str, Any]` in error_recovery.py): the fields the system
reads, i.e. `retryable`, `error_type`, `retry_strategy`, `suggestions`,
`details`.  `details` is a flat dict of scalars. -/
structure ErrInfo where
  errorType : String
  retryable : Bool
  retryStrategy : Option String
  suggestions : List String
  details : List (String × PyPrim)
deriving Repr, DecidableEq

/-- A Python value as it appears in the `Dict[str, Any]` responses of the
tool and recovery layers. -/
inductive PyVal where
  | prim (p : PyPrim)
  | strs (l : List String)
  | pdict (d : List (String × PyPrim))
  | pdicts (l : List (List (String × PyPrim)))
  | errval (e : ErrInfo)
deriving Repr, DecidableEq

/-- Shorthand for a string value. -/
def vs (s : String) : PyVal := PyVal.prim (PyPrim.str s)

/-- Shorthand for an int value. -/
def vi (n : Int) : PyVal := PyVal.prim (PyPrim.int n)

/-- Shorthand for a bool value. -/
def vb (b : Bool) : PyVal := PyVal.prim (PyPrim.bool b)

/-- Shorthand for `None`. -/
def vnone : PyVal := PyVal.prim PyPrim.none

/-- A tool response `Dict[str, Any]`, as an association list. -/
def ToolResponse := List (String × PyVal)
deriving Repr, DecidableEq

/-- `d[k]` lookup on an embedded Python dict (first binding wins; the
embedded dicts are built with distinct keys). -/
def getKey (r : ToolResponse) (k : String) : Option PyVal :=
  List.lookup k r

/-- Embedding of `ToolError` (error_handlers.py): the structured fields
carried by every tool exception. -/
structure ToolErr where
  message : String
  errorType : String
  details : List (String × PyPrim)
  suggestions : List String
  retryable : Bool
  retryStrategy : Option String
deriving Repr, DecidableEq

/-- `ToolError.__init__` with all parameters explicit (Python defaults:
error_type="unknown", details={}, suggestions=[], retryable=False,
retry_strategy=None are written out at each embedded call site). -/
def mkToolError (message : String) (errorType : String)
    (details : List (String × PyPrim)) (suggestions : List String)
    (retryable : Bool) (retryStrategy : Option String) : ToolErr :=
  ⟨message, errorType, details, suggestions, retryable, retryStrategy⟩

/-- The `if x: details[key] = x` pattern shared by the error subclass
constructors. -/
def detailsWith (key : String) (v : Option PyPrim)
    (base : List (String × PyPrim)) : List (String × PyPrim) :=
  match v with
  | Option.none => base
  | Option.some x => base ++ [(key, x)]

/-- Embedding of `PermissionError.__init__` (error_handlers.py:65-84). -/
def permissionError (message : String) (path : Option String)
    (details : List (String × PyPrim)) : ToolErr :=
  mkToolError message "permission_denied"
    (detailsWith "path" (path.map PyPrim.str) details)
    ["Check if the path requires user approval",
     "Verify the path is not in the blocked list",
     "Try requesting permission first"]
    true (Option.some "request_approval")

/-- Embedding of `FileNotFoundError.__init__` (error_handlers.py:87-106). -/
def fileNotFoundError (message : String) (path : Option String) : ToolErr :=
  mkToolError message "file_not_found"
    (detailsWith "path" (path.map PyPrim.str) [])
    ["Check if the file path is correct",
     "Use Glob to search for similar files",
     "Verify the file exists in the directory"]
    true (Option.some "search_alternatives")

/-- Embedding of `ValidationError.__init__` (error_handlers.py:109-122). -/
def validationError (message : String) (field : Option String)
    (details : List (String × PyPrim)) : ToolErr :=
  mkToolError message "invalid_input"
    (detailsWith "field" (field.map PyPrim.str) details)
    [] false Option.none

/-- Embedding of `NetworkError.__init__` (error_handlers.py:125-140). -/
def networkError (message : String) (url : Option String) : ToolErr :=
  mkToolError message "network_error"
    (detailsWith "url" (url.map PyPrim.str) [])
    ["Check network connectivity", "Verify the URL is accessible"]
    true (Option.some "exponential_backoff")

/-- Embedding of `TimeoutError.__init__` (error_handlers.py:143-158).
Python's `if timeout:` treats `0` as falsy, so a zero timeout is not
recorded in the details. -/
def timeoutError (message : String) (timeout : Option Int) : ToolErr :=
  mkToolError message "timeout"
    (detailsWith "timeout_seconds"
      (match timeout with
       | Option.none => Option.none
       | Option.some t => if t = 0 then Option.none else Option.some (PyPrim.int t)) [])
    ["Increase timeout value", "Check if the operation is too slow"]
    true (Option.some "increase_timeout")

/-- Embedding of `RateLimitError.__init__` (error_handlers.py:161-184),
with the same falsy-zero treatment for its optional int fields. -/
def rateLimitError (message : String) (limit retryAfter : Option Int) : ToolErr :=
  mkToolError message "rate_limit"
    (detailsWith "retry_after_seconds"
      (match retryAfter with
       | Option.none => Option.none
       | Option.some t => if t = 0 then Option.none else Option.some (PyPrim.int t))
      (detailsWith "rate_limit"
        (match limit with
         | Option.none => Option.none
         | Option.some t => if t = 0 then Option.none else Option.some (PyPrim.int t)) []))
    [match retryAfter with
     | Option.some _ => "Wait before retrying (see retry_after_seconds)"
     | Option.none => "Wait before retrying"]
    true (Option.some "wait_and_retry")

/-- `ToolError.to_dict` (error_handlers.py:52-62). -/
def ToolErr.toDict (e : ToolErr) : ToolResponse :=
  [("error", vb true),
   ("error_type", vs e.errorType),
   ("message", vs e.message),
   ("details", PyVal.pdict e.details),
   ("suggestions", PyVal.strs e.suggestions),
   ("retryable", vb e.retryable),
   ("retry_strategy", match e.retryStrategy with
                      | Option.none => vnone
                      | Option.some s => vs s)]

/-- An exception reaching a tool boundary: either a `ToolError` or some
other Python exception (carrying its type name and message). -/
inductive PyException where
  | toolErr (e : ToolErr)
  | other (typeName : String) (message : String)
deriving Repr, DecidableEq

/-- `create_error_response` (error_handlers.py:187-218) with the default
`include_traceback=False`. -/
def create_error_response (e : PyException) : ToolResponse :=
  match e with
  | PyException.toolErr te => te.toDict
  | PyException.other ty msg =>
      [("error", vb true),
       ("error_type", vs "unknown"),
       ("message", vs msg),
       ("details", PyVal.pdict [("exception_type", PyPrim.str ty)]),
       ("suggestions", PyVal.strs []),
       ("retryable", vb false),
       ("retry_strategy", vnone)]

/-- The exception construction forms that actually occur in the repository
(every `raise` site in src builds one of the `ToolError` subclasses with
the arguments below, a plain `ToolError` with default retryable/strategy,
or lets a non-`ToolError` exception propagate to the boundary). -/
inductive RaisedErr where
  | permission (message : String) (path : Option String) (details : List (String × PyPrim))
  | fileNotFound (message : String) (path : Option String)
  | validation (message : String) (field : Option String) (details : List (String × PyPrim))
  | network (message : String) (url : Option String)
  | timeout (message : String) (seconds : Option Int)
  | rateLimit (message : String) (limit retryAfter : Option Int)
  | plainTool (message : String) (details : List (String × PyPrim)) (suggestions : List String)
  | nonTool (typeName message : String)
deriving Repr, DecidableEq

/-- The exception value each construction form produces. -/
def RaisedErr.toException : RaisedErr → PyException
  | RaisedErr.permission m p d => PyException.toolErr (permissionError m p d)
  | RaisedErr.fileNotFound m p => PyException.toolErr (fileNotFoundError m p)
  | RaisedErr.validation m f d => PyException.toolErr (validationError m f d)
  | RaisedErr.network m u => PyException.toolErr (networkError m u)
  | RaisedErr.timeout m s => PyException.toolErr (timeoutError m s)
  | RaisedErr.rateLimit m l r => PyException.toolErr (rateLimitError m l r)
  | RaisedErr.plainTool m d s =>
      PyException.toolErr (mkToolError m "unknown" d s false Option.none)
  | RaisedErr.nonTool ty m => PyException.other ty m

/-- Claim C8: every error envelope produced at a tool boundary via
`create_error_response` from any exception the repository constructs
satisfies the invariant that `retryable = false` implies
`retry_strategy = null`; this covers the `ToolError` subclasses and the
wrapping of arbitrary non-`ToolError` exceptions as `unknown`. -/
theorem envelope_retryable_false_implies_no_strategy (r : RaisedErr) :
    getKey (create_error_response r.toException) "retryable" = Option.some (vb false) →
    getKey (create_error_response r.toException) "retry_strategy" = Option.some vnone := by
  cases r <;>
    simp [RaisedErr.toException, create_error_response, ToolErr.toDict, getKey,
      permissionError, fileNotFoundError, validationError, networkError,
      timeoutError, rateLimitError, mkToolError, List.lookup, vb, vnone, vs]

/-- Witness for C8: a concrete non-retryable envelope (a `ValidationError`)
realizes the hypothesis and the conclusion. -/
theorem envelope_retryable_false_implies_no_strategy_witness :
    getKey (create_error_response
        (RaisedErr.validation "Path must be a non-empty string" (Option.some "path") []).toException)
        "retryable" = Option.some (vb false) ∧
    getKey (create_error_response
        (RaisedErr.validation "Path must be a non-empty string" (Option.some "path") []).toException)
        "retry_strategy" = Option.some vnone :=
  ⟨by decide,
   envelope_retryable_false_implies_no_strategy
     (RaisedErr.validation "Path must be a non-empty string" (Option.some "path") [])
     (by decide)⟩

/-! ## Permission manager (access_control.py)

Paths are modeled as plain strings taken after `_normalize_path` (the
claims quantify over normalized paths; normalization itself expands
variables and resolves symlinks and is modeled as the identity).
`Path.relative_to` success is component-wise prefix; `_match_pattern`
translates the pattern by `*` -> any character sequence and anchors at
the start without anchoring the end (the source compiles
`^pattern.replace("*", ".*")` and uses `re.match`), so it tests whether
some prefix of the subject matches; regex metacharacters other than `*`
that the crude translation leaves in place are modeled as literals. -/

/-- Permission policy (the `permissions:` section of the YAML config). -/
structure PermConfig where
  mode : String
  safeDirectories : List String
  blockedDirectories : List String
  requireApproval : List String
  blockedFileTypes : List String
deriving Repr, DecidableEq

/-- Mutable approval state of `PermissionManager`. -/
structure PermState where
  sessionApprovals : List String
  persistentApprovals : List String
deriving Repr, DecidableEq

/-- Python `set.add`: append the key if not already present. -/
def setAdd (s : List String) (k : String) : List String :=
  if s.contains k then s else s ++ [k]

/-- Core of `_match_pattern`: does some prefix of the subject match the
pattern, with `*` matching any character sequence?  (A `*` consumes an
arbitrary suffix-start, i.e. the pattern after it must match from some
suffix of the subject.) -/
def wildMatch : List Char → List Char → Bool
  | [], _ => true
  | '*' :: ps, s => (List.tails s).any (fun t => wildMatch ps t)
  | p :: ps, c :: s => p == c && wildMatch ps s
  | _ :: _, [] => false

/-- `_match_pattern(path, pattern)` (access_control.py:47-65). -/
def matchPattern (path pattern : String) : Bool :=
  wildMatch pattern.data path.data

/-- Split a character list on a separator (the behavior of Python
`str.split(sep)` for a one-character separator). -/
def splitOnChar (sep : Char) : List Char → List Char → List (List Char)
  | [], acc => [acc.reverse]
  | c :: cs, acc =>
      if c == sep then acc.reverse :: splitOnChar sep cs []
      else splitOnChar sep cs (c :: acc)

/-- The `/`-components of a path string. -/
def pathComponents (p : String) : List String :=
  (splitOnChar '/' p.data []).map (fun cs => String.mk cs)

/-- `path.relative_to(dir)` succeeding: the components of `dir` are a
prefix of the components of `path`. -/
def isUnder (path dir : String) : Bool :=
  (pathComponents dir).isPrefixOf (pathComponents path)

/-- The shared loop of `_is_safe_directory` / `_is_blocked_directory` /
`_requires_approval`: some configured entry covers the path either by
`relative_to` or by pattern match. -/
def dirListMatch (dirs : List String) (path : String) : Bool :=
  dirs.any (fun d => isUnder path d || matchPattern path d)

/-- `_is_blocked_directory` (access_control.py:84-97). -/
def is_blocked_directory (cfg : PermConfig) (path : String) : Bool :=
  dirListMatch cfg.blockedDirectories path

/-- `_is_safe_directory` (access_control.py:67-82). -/
def is_safe_directory (cfg : PermConfig) (path : String) : Bool :=
  dirListMatch cfg.safeDirectories path

/-- `_requires_approval` (access_control.py:99-112). -/
def requires_approval (cfg : PermConfig) (path : String) : Bool :=
  dirListMatch cfg.requireApproval path

/-- The last path component (`Path(p).name`, roughly). -/
def lastComponent (p : String) : String :=
  (pathComponents p).getLastD ""

/-- `Path(p).suffix`: the extension of the last component, i.e. the part
from the last dot when that dot is neither the first nor the last
character of the name, else the empty string (CPython pathlib rule). -/
def fileSuffix (p : String) : String :=
  let cs := (lastComponent p).data
  let revTail := cs.reverse.takeWhile (fun c => c != '.')
  if revTail.length = cs.length then ""
  else
    let i := cs.length - revTail.length - 1
    if 0 < i ∧ i < cs.length - 1 then String.mk (cs.drop i) else ""

/-- `file_path.suffix.lower()`. -/
def fileSuffixLower (p : String) : String :=
  String.mk ((fileSuffix p).data.map Char.toLower)

/-- Outcome of a permission check: returned `True`, or raised. -/
inductive AccessOutcome where
  | ok (b : Bool)
  | exc (e : PyException)
deriving Repr, DecidableEq

/-- `PermissionManager.check_file_access` (access_control.py:114-179),
returning the outcome together with the updated approval state.

The require-approval/strict branch in the source calls
`PermissionDeniedError(msg, path=..., suggestions=[...])`; since
`PermissionError.__init__` already passes its own fixed `suggestions`
list to `ToolError.__init__`, the extra keyword collides and Python in
fact raises `TypeError` at that site, which is what the embedding
records. -/
def check_file_access (cfg : PermConfig) (st : PermState)
    (path operation : String) (autoApprove : Bool) : AccessOutcome × PermState :=
  if is_blocked_directory cfg path then
    (AccessOutcome.exc (PyException.toolErr (permissionError
        ("Access denied: " ++ path ++ " is in blocked directories")
        (Option.some path) [])), st)
  else if (operation == "read" || operation == "write")
      && cfg.blockedFileTypes.contains (fileSuffixLower path) then
    (AccessOutcome.exc (PyException.toolErr (permissionError
        ("File type " ++ fileSuffixLower path ++ " is blocked")
        (Option.some path) [])), st)
  else
    let approvalKey := operation ++ ":" ++ path
    if autoApprove && st.sessionApprovals.contains approvalKey then
      (AccessOutcome.ok true, st)
    else if is_safe_directory cfg path then
      (AccessOutcome.ok true,
       { st with sessionApprovals := setAdd st.sessionApprovals approvalKey })
    else if requires_approval cfg path || cfg.mode == "strict" then
      (AccessOutcome.exc (PyException.other "TypeError"
        "ToolError.__init__ got multiple values for keyword argument suggestions"), st)
    else
      (AccessOutcome.ok true,
       { st with sessionApprovals := setAdd st.sessionApprovals approvalKey })

/-- Claim C1: a path under a configured blocked directory is always
denied with a `permission_denied` error, for every operation, every
auto-approve flag, every approval state (session approvals included) and
every safe-directory overlap, because the blocked check runs first. -/
theorem blocked_directory_always_denied (cfg : PermConfig) (st : PermState)
    (path operation : String) (autoApprove : Bool)
    (h : is_blocked_directory cfg path = true) :
    (check_file_access cfg st path operation autoApprove).1 =
      AccessOutcome.exc (PyException.toolErr (permissionError
        ("Access denied: " ++ path ++ " is in blocked directories")
        (Option.some path) [])) := by
  simp [check_file_access, h]

/-- Witness for C1: `/etc/passwd` under blocked `/etc` is denied with a
`permission_denied` error even though `/etc` is also a safe directory and
the pair is session-approved with auto-approve on. -/
theorem blocked_directory_always_denied_witness :
    is_blocked_directory ⟨"moderate", ["/etc"], ["/etc"], [], []⟩ "/etc/passwd" = true ∧
    (check_file_access ⟨"moderate", ["/etc"], ["/etc"], [], []⟩
        ⟨["write:/etc/passwd"], []⟩ "/etc/passwd" "write" true).1 =
      AccessOutcome.exc (PyException.toolErr (permissionError
        ("Access denied: " ++ "/etc/passwd" ++ " is in blocked directories")
        (Option.some "/etc/passwd") [])) :=
  ⟨by decide,
   blocked_directory_always_denied ⟨"moderate", ["/etc"], ["/etc"], [], []⟩
     ⟨["write:/etc/passwd"], []⟩ "/etc/passwd" "write" true (by decide)⟩

/-- Counterexample for C6 as stated: in strict mode, with `/tmp/x` neither
blocked nor extension-blocked and `read:/tmp/x` recorded in the session
approvals, `check_file_access` with the default `auto_approve=False` (as
every file tool calls it) still raises instead of allowing: the
session-approval short-circuit is guarded by `auto_approve`. -/
theorem session_approval_ignored_without_auto_approve :
    is_blocked_directory ⟨"strict", [], [], [], []⟩ "/tmp/x" = false ∧
    PermConfig.blockedFileTypes ⟨"strict", [], [], [], []⟩ = [] ∧
    List.contains ["read:/tmp/x"] ("read" ++ ":" ++ "/tmp/x") = true ∧
    (check_file_access ⟨"strict", [], [], [], []⟩ ⟨["read:/tmp/x"], []⟩
        "/tmp/x" "read" false).1 ≠ AccessOutcome.ok true := by
  decide

/-- Claim C6 (amended): for a path that is neither blocked nor
extension-blocked, a recorded `(operation, path)` session approval makes
`check_file_access` return `True` with the state unchanged, before the
safe-directory, require-approval and strict-mode checks — provided the
call passes `auto_approve=True`; with the default `auto_approve=False`
the session-approval cache is not consulted. -/
theorem session_approval_allows_with_auto_approve (cfg : PermConfig)
    (st : PermState) (path operation : String)
    (h1 : is_blocked_directory cfg path = false)
    (h2 : ((operation == "read" || operation == "write")
            && cfg.blockedFileTypes.contains (fileSuffixLower path)) = false)
    (h3 : st.sessionApprovals.contains (operation ++ ":" ++ path) = true) :
    check_file_access cfg st path operation true = (AccessOutcome.ok true, st) := by
  have h2a : ¬((operation = "read" ∨ operation = "write")
      ∧ fileSuffixLower path ∈ cfg.blockedFileTypes) := by simpa using h2
  have h3a : operation ++ ":" ++ path ∈ st.sessionApprovals := by simpa using h3
  simp [check_file_access, h1, h2a, h3a]

/-- Witness for the amended C6: strict mode and a require-approval match
would deny, but the recorded session approval with `auto_approve=True`
allows and leaves the state unchanged. -/
theorem session_approval_allows_with_auto_approve_witness :
    is_blocked_directory ⟨"strict", [], [], ["/tmp"], []⟩ "/tmp/x" = false ∧
    ((("read" == "read" || "read" == "write")
        && (PermConfig.blockedFileTypes ⟨"strict", [], [], ["/tmp"], []⟩).contains
             (fileSuffixLower "/tmp/x")) = false) ∧
    List.contains ["read:/tmp/x"] ("read" ++ ":" ++ "/tmp/x") = true ∧
    check_file_access ⟨"strict", [], [], ["/tmp"], []⟩ ⟨["read:/tmp/x"], []⟩
        "/tmp/x" "read" true = (AccessOutcome.ok true, ⟨["read:/tmp/x"], []⟩) :=
  ⟨by decide, by decide, by decide,
   session_approval_allows_with_auto_approve ⟨"strict", [], [], ["/tmp"], []⟩
     ⟨["read:/tmp/x"], []⟩ "/tmp/x" "read" (by decide) (by decide) (by decide)⟩

/-- Did the permission check raise? -/
def AccessOutcome.isExc : AccessOutcome → Bool
  | AccessOutcome.exc _ => true
  | AccessOutcome.ok _ => false

/-- Claim C10: a `check_file_access` call that raises leaves the
permission state exactly as it was (no session approval gained or lost),
and no call ever changes the persistent approvals; approvals are added
only on the allow outcomes. -/
theorem check_file_access_denial_frame (cfg : PermConfig) (st : PermState)
    (path operation : String) (autoApprove : Bool) :
    ((check_file_access cfg st path operation autoApprove).1.isExc = true →
        (check_file_access cfg st path operation autoApprove).2 = st) ∧
    ((check_file_access cfg st path operation autoApprove).2).persistentApprovals
      = st.persistentApprovals := by
  simp only [check_file_access]
  repeat' split
  all_goals
    first
      | exact ⟨fun _ => rfl, rfl⟩
      | exact ⟨fun h => absurd h (by simp [AccessOutcome.isExc]), rfl⟩

/-- Witness for C10: a concrete blocked-directory denial returns the
state it was given. -/
theorem check_file_access_denial_frame_witness :
    (check_file_access ⟨"moderate", [], ["/etc"], [], []⟩ ⟨["a"], ["b"]⟩
        "/etc/shadow" "read" false).1.isExc = true ∧
    (check_file_access ⟨"moderate", [], ["/etc"], [], []⟩ ⟨["a"], ["b"]⟩
        "/etc/shadow" "read" false).2 = ⟨["a"], ["b"]⟩ :=
  ⟨by decide,
   (check_file_access_denial_frame ⟨"moderate", [], ["/etc"], [], []⟩
       ⟨["a"], ["b"]⟩ "/etc/shadow" "read" false).1 (by decide)⟩

/-! ## File tools (file_tools.py)

The filesystem is an association list from (normalized) path to file
content; `fsSet` prepends, so the most recent write wins on lookup. -/

/-- The filesystem state seen by the file tools. -/
def FS := List (String × String)
deriving Repr, DecidableEq

/-- Read a path (None = the file does not exist). -/
def fsGet (fs : FS) (p : String) : Option String :=
  List.lookup p fs

/-- Write a path. -/
def fsSet (fs : FS) (p content : String) : FS :=
  (p, content) :: fs

theorem fsGet_fsSet_self (fs : FS) (p c : String) :
    fsGet (fsSet fs p c) p = Option.some c := by
  simp [fsGet, fsSet, List.lookup]

theorem fsGet_fsSet_ne (fs : FS) (p c q : String) (h : q ≠ p) :
    fsGet (fsSet fs p c) q = fsGet fs q := by
  have hb : (q == p) = false := by simpa using h
  simp [fsGet, fsSet, List.lookup, hb]

theorem str_append_ne_left (p s : String) (h : s ≠ "") : p ++ s ≠ p := by
  intro he
  apply h
  have hd : p.data ++ s.data = p.data ++ [] := by
    have h1 := congrArg String.data he
    simpa using h1
  have hnil : s.data = [] := List.append_cancel_left hd
  exact String.ext (by simpa using hnil)

/-- `write` sub-config of the tool configuration: `backup.enabled`
(default true) and `backup.suffix` (default ".backup"). -/
structure WriteConfig where
  backupEnabled : Bool
  backupSuffix : String
deriving Repr, DecidableEq

/-- Python `str.splitlines()` for `\n`-separated text: the list of lines
without terminators, with no phantom empty line after a trailing
newline. -/
def pySplitlines (s : String) : List String :=
  let parts := splitOnChar '\n' s.data []
  (match parts.getLast? with
   | Option.some [] => parts.dropLast
   | _ => parts).map (fun cs => String.mk cs)

/-- Build the success response of `write_file` (file_tools.py:187-195). -/
def writeSuccessResponse (path content : String) (backupPath : Option String)
    (fileExists : Bool) : ToolResponse :=
  [("success", vb true),
   ("file_path", vs path),
   ("lines_written", vi (pySplitlines content).length),
   ("bytes_written", vi content.utf8ByteSize),
   ("backup_created", vb backupPath.isSome),
   ("backup_path", match backupPath with
                   | Option.none => vnone
                   | Option.some p => vs p),
   ("operation", vs (if fileExists then "overwrite" else "create"))]

/-- `FileTools.write_file` (file_tools.py:120-200): validate the path,
check write permission (with the default `auto_approve=False`), copy the
existing file to `path + backup_suffix` when it exists and backup is
requested (`create_backup` argument overriding the configured default),
then write.  `copyOk` models whether the `shutil.copy2` call succeeds;
when it raises, the exception is caught at the tool boundary and the
filesystem is untouched.  Returns the response, the new filesystem, and
the new permission state. -/
def write_file (cfg : PermConfig) (wcfg : WriteConfig) (st : PermState)
    (fs : FS) (path content : String) (createBackup : Option Bool)
    (copyOk : Bool) : ToolResponse × FS × PermState :=
  if path = "" then
    (create_error_response (PyException.toolErr
      (validationError "Path must be a non-empty string" (Option.some "path") [])),
     fs, st)
  else
    match check_file_access cfg st path "write" false with
    | (AccessOutcome.exc e, st2) => (create_error_response e, fs, st2)
    | (AccessOutcome.ok _, st2) =>
        let shouldBackup := createBackup.getD wcfg.backupEnabled
        match fsGet fs path with
        | Option.some old =>
            if shouldBackup then
              if copyOk then
                let backupPath := path ++ wcfg.backupSuffix
                (writeSuccessResponse path content (Option.some backupPath) true,
                 fsSet (fsSet fs backupPath old) path content, st2)
              else
                (create_error_response (PyException.other "OSError"
                  ("Backup copy failed for " ++ path)), fs, st2)
            else
              (writeSuccessResponse path content Option.none true,
               fsSet fs path content, st2)
        | Option.none =>
            (writeSuccessResponse path content Option.none false,
             fsSet fs path content, st2)

/-- Claim C2: when the target pre-exists and backups are enabled, a
successful `write_file(P, C)` leaves the backup file `P + suffix` holding
the pre-call content of P and P holding C; and when the backup copy
fails, the call returns an error envelope and the filesystem (in
particular P) is unchanged — the original is never overwritten without a
successful backup. -/
theorem write_file_backup_correct (cfg : PermConfig) (wcfg : WriteConfig)
    (st : PermState) (fs : FS) (path content old : String)
    (createBackup : Option Bool) (copyOk : Bool)
    (hperm : (check_file_access cfg st path "write" false).1 = AccessOutcome.ok true)
    (hpath : path ≠ "")
    (hsuffix : wcfg.backupSuffix ≠ "")
    (hold : fsGet fs path = Option.some old)
    (hbackup : createBackup.getD wcfg.backupEnabled = true) :
    (copyOk = true →
        getKey (write_file cfg wcfg st fs path content createBackup copyOk).1 "success"
          = Option.some (vb true) ∧
        fsGet (write_file cfg wcfg st fs path content createBackup copyOk).2.1
          (path ++ wcfg.backupSuffix) = Option.some old ∧
        fsGet (write_file cfg wcfg st fs path content createBackup copyOk).2.1 path
          = Option.some content) ∧
    (copyOk = false →
        getKey (write_file cfg wcfg st fs path content createBackup copyOk).1 "error"
          = Option.some (vb true) ∧
        (write_file cfg wcfg st fs path content createBackup copyOk).2.1 = fs) := by
  rcases hc : check_file_access cfg st path "write" false with ⟨o, st2⟩
  have ho : o = AccessOutcome.ok true := by rw [hc] at hperm; exact hperm
  subst ho
  have hne : path ++ wcfg.backupSuffix ≠ path := str_append_ne_left path wcfg.backupSuffix hsuffix
  constructor
  · intro hcopy
    subst hcopy
    simp only [write_file, hpath, hc, hold, hbackup, if_true, if_false]
    refine ⟨by simp [writeSuccessResponse, getKey, List.lookup], ?_, ?_⟩
    · rw [fsGet_fsSet_ne _ _ _ _ hne, fsGet_fsSet_self]
    · rw [fsGet_fsSet_self]
  · intro hcopy
    subst hcopy
    simp only [write_file, hpath, hc, hold, hbackup, if_true, if_false]
    exact ⟨by simp [create_error_response, getKey, List.lookup], rfl⟩

/-- Witness for C2 (successful-copy side): overwriting `/w/f.txt` holding
"OLD" with "NEW" creates `/w/f.txt.backup` holding "OLD" and leaves the
file holding "NEW". -/
theorem write_file_backup_correct_witness :
    fsGet [("/w/f.txt", "OLD")] "/w/f.txt" = Option.some "OLD" ∧
    (getKey (write_file ⟨"moderate", [], [], [], []⟩ ⟨true, ".backup"⟩ ⟨[], []⟩
        [("/w/f.txt", "OLD")] "/w/f.txt" "NEW" Option.none true).1 "success"
      = Option.some (vb true) ∧
    fsGet (write_file ⟨"moderate", [], [], [], []⟩ ⟨true, ".backup"⟩ ⟨[], []⟩
        [("/w/f.txt", "OLD")] "/w/f.txt" "NEW" Option.none true).2.1
      ("/w/f.txt" ++ ".backup") = Option.some "OLD" ∧
    fsGet (write_file ⟨"moderate", [], [], [], []⟩ ⟨true, ".backup"⟩ ⟨[], []⟩
        [("/w/f.txt", "OLD")] "/w/f.txt" "NEW" Option.none true).2.1 "/w/f.txt"
      = Option.some "NEW") :=
  ⟨by decide,
   (write_file_backup_correct ⟨"moderate", [], [], [], []⟩ ⟨true, ".backup"⟩ ⟨[], []⟩
      [("/w/f.txt", "OLD")] "/w/f.txt" "NEW" "OLD" Option.none true
      (by decide) (by decide) (by decide) (by decide) (by decide)).1 rfl⟩

/-! ## Reading files back (file_tools.py read_file) and the round trip -/

/-- Python `file.readlines()` on `\n`-separated text: the lines of the
character stream, each keeping its trailing `\n`, with no empty final
line (accumulator-based; `acc` holds the current line reversed). -/
def pyReadlinesAux : List Char → List Char → List (List Char)
  | [], acc => if acc.isEmpty then [] else [acc.reverse]
  | c :: cs, acc =>
      if c == '\n' then (acc.reverse ++ ['\n']) :: pyReadlinesAux cs []
      else pyReadlinesAux cs (c :: acc)

/-- `readlines` on a string. -/
def pyReadlines (s : String) : List String :=
  (pyReadlinesAux s.data []).map (fun cs => String.mk cs)

/-- Python `str.isspace` members relevant to `rstrip()`: space, tab,
newline, carriage return, vertical tab, form feed. -/
def pyIsSpaceChar (c : Char) : Bool :=
  c == ' ' || c == '\t' || c == '\n' || c == '\r' || c.toNat == 11 || c.toNat == 12

/-- Python `str.rstrip()` on a character list. -/
def pyRstripL (cs : List Char) : List Char :=
  (cs.reverse.dropWhile pyIsSpaceChar).reverse

/-- Python `str.rstrip()`. -/
def pyRstrip (s : String) : String :=
  String.mk (pyRstripL s.data)

/-- The character for one decimal digit (only ever applied to values
below 10). -/
def decDigit : Nat → Char
  | 0 => '0'
  | 1 => '1'
  | 2 => '2'
  | 3 => '3'
  | 4 => '4'
  | 5 => '5'
  | 6 => '6'
  | 7 => '7'
  | 8 => '8'
  | _ => '9'

/-- Decimal digits of a natural number, most significant first
(fuel-based so that it is structurally recursive; fuel `n + 1` always
suffices). -/
def natDigitsAux : Nat → Nat → List Char
  | 0, _ => []
  | fuel + 1, n =>
      if n < 10 then [decDigit n]
      else natDigitsAux fuel (n / 10) ++ [decDigit (n % 10)]

/-- Decimal rendering of a natural number. -/
def natDigits (n : Nat) : List Char :=
  natDigitsAux (n + 1) n

/-- Python format `f"{i:6d}"`: the decimal digits right-aligned in a
field of six spaces. -/
def pad6 (i : Nat) : List Char :=
  List.replicate (6 - (natDigits i).length) ' ' ++ natDigits i

/-- One formatted output line of `read_file`
(`f"{i:6d}\t{line.rstrip()}"`, file_tools.py:99). -/
def formatLine (i : Nat) (line : String) : String :=
  String.mk (pad6 i ++ '\t' :: (pyRstrip line).data)

/-- `for i, line in enumerate(lines, start=start_line)` over the format. -/
def enumFormat : Nat → List String → List String
  | _, [] => []
  | i, l :: ls => formatLine i l :: enumFormat (i + 1) ls

/-- Python `"\n".join(...)`. -/
def joinNl : List String → String
  | [] => ""
  | [l] => l
  | l :: ls => l ++ "\n" ++ joinNl ls

/-- `read` sub-config of the tool configuration
(`max_file_size_mb`, default 10). -/
structure ReadConfig where
  maxFileSizeMb : Nat
deriving Repr, DecidableEq

/-- `FileTools.read_file` (file_tools.py:34-118): validate (non-empty
path that exists), check read permission (default `auto_approve=False`),
reject files over the size limit (the source formats the sizes as floats
in the message and details; the embedding carries the byte count), then
read the lines, apply the 1-indexed offset/limit window, and return the
content with each line rstripped and prefixed by `f"{i:6d}\t"`. -/
def read_file (cfg : PermConfig) (rcfg : ReadConfig) (st : PermState)
    (fs : FS) (path : String) (offset limit : Option Nat) :
    ToolResponse × PermState :=
  if path = "" then
    (create_error_response (PyException.toolErr
      (validationError "Path must be a non-empty string" (Option.some "path") [])),
     st)
  else
    match fsGet fs path with
    | Option.none =>
        (create_error_response (PyException.toolErr
          (validationError ("Path does not exist: " ++ path) (Option.some "path")
            [("path", PyPrim.str path)])), st)
    | Option.some content =>
        match check_file_access cfg st path "read" false with
        | (AccessOutcome.exc e, st2) => (create_error_response e, st2)
        | (AccessOutcome.ok _, st2) =>
            if content.utf8ByteSize > rcfg.maxFileSizeMb * 1024 * 1024 then
              (create_error_response (PyException.toolErr (mkToolError
                "File too large" "unknown"
                [("file_size_mb", PyPrim.int content.utf8ByteSize),
                 ("max_size_mb", PyPrim.int rcfg.maxFileSizeMb)]
                ["Use offset and limit to read portions of the file"]
                false Option.none)), st2)
            else
              let lines := pyReadlines content
              let totalLines := lines.length
              let lines1 := match offset with
                            | Option.none => lines
                            | Option.some o => lines.drop (Nat.max 1 o - 1)
              let lines2 := match limit with
                            | Option.none => lines1
                            | Option.some l => lines1.take (Nat.max 1 l)
              let startLine : Nat := match offset with
                                     | Option.none => 1
                                     | Option.some o => Nat.max 1 o
              ([("success", vb true),
                ("file_path", vs path),
                ("total_lines", vi totalLines),
                ("lines_returned", vi lines2.length),
                ("start_line", vi startLine),
                ("content", vs (joinNl (enumFormat startLine lines2)))], st2)

/-- The `content` field of a successful read response. -/
def readContentString (r : ToolResponse) : Option String :=
  match getKey r "content" with
  | Option.some (PyVal.prim (PyPrim.str s)) => Option.some s
  | _ => Option.none

/-- Remove one injected line-number tag: drop everything up to and
including the first tab of the line. -/
def stripLineTag (l : String) : String :=
  String.mk ((l.data.dropWhile (fun c => c != '\t')).drop 1)

/-- Split a string into its `\n`-separated pieces. -/
def splitNl (s : String) : List String :=
  (splitOnChar '\n' s.data []).map (fun cs => String.mk cs)

/-- Remove the injected line-number tags from a whole `read_file`
content string. -/
def stripAllTags (s : String) : String :=
  joinNl ((splitNl s).map stripLineTag)

/-- Counterexample for C7 as stated: writing the two-line content
`"a \nb"` (first line with a trailing space) and reading it back with no
offset or limit yields, after stripping the injected line-number tags,
`"a\nb"` — not the original content: `read_file` rstrips every line, so
trailing whitespace does not survive the round trip. -/
theorem write_read_roundtrip_cex :
    getKey (write_file ⟨"moderate", [], [], [], []⟩ ⟨true, ".backup"⟩ ⟨[], []⟩ []
        "/w/f.txt" "a \nb" Option.none true).1 "success" = Option.some (vb true) ∧
    (readContentString (read_file ⟨"moderate", [], [], [], []⟩ ⟨10⟩ ⟨[], []⟩
        (write_file ⟨"moderate", [], [], [], []⟩ ⟨true, ".backup"⟩ ⟨[], []⟩ []
          "/w/f.txt" "a \nb" Option.none true).2.1
        "/w/f.txt" Option.none Option.none).1).map stripAllTags
      = Option.some "a\nb" ∧
    Option.some "a\nb" ≠ Option.some ("a \nb" : String) := by
  refine ⟨by decide, by decide, by decide⟩

/-! Helper lemmas for the amended round-trip statement. -/

theorem decDigit_safe (d : Nat) : decDigit d ≠ '\t' ∧ decDigit d ≠ '\n' :=
  match d with
  | 0 => ⟨by decide, by decide⟩
  | 1 => ⟨by decide, by decide⟩
  | 2 => ⟨by decide, by decide⟩
  | 3 => ⟨by decide, by decide⟩
  | 4 => ⟨by decide, by decide⟩
  | 5 => ⟨by decide, by decide⟩
  | 6 => ⟨by decide, by decide⟩
  | 7 => ⟨by decide, by decide⟩
  | 8 => ⟨by decide, by decide⟩
  | _ + 9 => ⟨by show ('9' : Char) ≠ '\t'; decide, by show ('9' : Char) ≠ '\n'; decide⟩

theorem natDigitsAux_safe (fuel : Nat) : ∀ (n : Nat) (c : Char),
    c ∈ natDigitsAux fuel n → c ≠ '\t' ∧ c ≠ '\n' := by
  induction fuel with
  | zero => intro n c hc; simp [natDigitsAux] at hc
  | succ fuel ih =>
      intro n c hc
      simp only [natDigitsAux] at hc
      by_cases hn : n < 10
      · rw [if_pos hn] at hc
        simp at hc
        subst hc
        exact decDigit_safe n
      · rw [if_neg hn] at hc
        rcases List.mem_append.mp hc with h1 | h1
        · exact ih (n / 10) c h1
        · simp at h1
          subst h1
          exact decDigit_safe (n % 10)

theorem pad6_safe (i : Nat) : ∀ c ∈ pad6 i, c ≠ '\t' ∧ c ≠ '\n' := by
  intro c hc
  rcases List.mem_append.mp hc with h1 | h1
  · have h2 := List.eq_of_mem_replicate h1
    subst h2
    exact ⟨by decide, by decide⟩
  · exact natDigitsAux_safe _ _ c h1

theorem dropWhile_until_tab (rest : List Char) : ∀ (a : List Char),
    (∀ c ∈ a, c ≠ '\t') →
    (a ++ '\t' :: rest).dropWhile (fun c => c != '\t') = '\t' :: rest := by
  intro a
  induction a with
  | nil => intro _; simp [List.dropWhile]
  | cons c a ih =>
      intro h
      have hc : (c != '\t') = true := by
        simpa using h c (List.mem_cons_self c a)
      simp only [List.cons_append, List.dropWhile, hc]
      exact ih (fun x hx => h x (List.mem_cons_of_mem c hx))

theorem stripLineTag_formatLine (i : Nat) (l : String) :
    stripLineTag (formatLine i l) = pyRstrip l := by
  show String.mk (((pad6 i ++ '\t' :: (pyRstrip l).data).dropWhile
      (fun c => c != '\t')).drop 1) = pyRstrip l
  rw [dropWhile_until_tab _ _ (fun c hc => (pad6_safe i c hc).1)]
  rfl

theorem stripLineTag_enumFormat (ls : List String) : ∀ (start : Nat),
    (enumFormat start ls).map stripLineTag = ls.map pyRstrip := by
  induction ls with
  | nil => intro start; simp [enumFormat]
  | cons l ls ih =>
      intro start
      simp [enumFormat, stripLineTag_formatLine, ih (start + 1)]

theorem pyReadlinesAux_shape : ∀ (cs acc : List Char), '\n' ∉ acc →
    ∀ l ∈ pyReadlinesAux cs acc, ∃ a, '\n' ∉ a ∧ (l = a ++ ['\n'] ∨ l = a) := by
  intro cs
  induction cs with
  | nil =>
      intro acc hacc l hl
      simp only [pyReadlinesAux] at hl
      by_cases hac : acc.isEmpty
      · rw [if_pos hac] at hl
        simp at hl
      · rw [if_neg hac] at hl
        simp at hl
        subst hl
        exact ⟨acc.reverse, by simpa using hacc, Or.inr rfl⟩
  | cons c cs ih =>
      intro acc hacc l hl
      simp only [pyReadlinesAux] at hl
      by_cases hc : (c == '\n') = true
      · rw [if_pos hc] at hl
        rcases List.mem_cons.mp hl with he | ht
        · exact ⟨acc.reverse, by simpa using hacc, Or.inl he⟩
        · exact ih [] (by simp) l ht
      · rw [if_neg hc] at hl
        have hcne : ('\n' : Char) ≠ c := fun he => hc (by simp [he.symm])
        exact ih (c :: acc) (by simp [List.mem_cons]; exact ⟨hcne, hacc⟩) l hl

theorem mem_of_mem_dropWhile (p : Char → Bool) :
    ∀ (l : List Char) (c : Char), c ∈ l.dropWhile p → c ∈ l := by
  intro l
  induction l with
  | nil => intro c hc; simp [List.dropWhile] at hc
  | cons x l ih =>
      intro c hc
      cases hx : p x with
      | true =>
          simp only [List.dropWhile, hx] at hc
          exact List.mem_cons_of_mem x (ih c hc)
      | false =>
          simp only [List.dropWhile, hx] at hc
          exact hc

theorem not_mem_pyRstripL (a : List Char) (c : Char) (h : c ∉ a) :
    c ∉ pyRstripL a := by
  intro hc
  apply h
  have h1 : c ∈ a.reverse.dropWhile pyIsSpaceChar := by
    simpa [pyRstripL] using hc
  have h2 : c ∈ a.reverse := mem_of_mem_dropWhile pyIsSpaceChar a.reverse c h1
  simpa using h2

theorem pyRstripL_append_newline (a : List Char) :
    pyRstripL (a ++ ['\n']) = pyRstripL a := by
  simp [pyRstripL, List.dropWhile, pyIsSpaceChar]

theorem rstrip_no_newline_of_shape (l : List Char)
    (h : ∃ a, '\n' ∉ a ∧ (l = a ++ ['\n'] ∨ l = a)) : '\n' ∉ pyRstripL l := by
  rcases h with ⟨a, ha, hl | hl⟩
  · subst hl
    rw [pyRstripL_append_newline]
    exact not_mem_pyRstripL a '\n' ha
  · subst hl
    exact not_mem_pyRstripL _ '\n' ha

theorem formatLine_no_newline (i : Nat) (l : String)
    (h : '\n' ∉ (pyRstrip l).data) : '\n' ∉ (formatLine i l).data := by
  show '\n' ∉ pad6 i ++ '\t' :: (pyRstrip l).data
  intro hc
  rcases List.mem_append.mp hc with h1 | h1
  · exact absurd rfl (pad6_safe i '\n' h1).2
  · rcases List.mem_cons.mp h1 with h2 | h2
    · exact absurd h2 (by decide)
    · exact h h2

theorem mem_enumFormat (f : String) : ∀ (ls : List String) (start : Nat),
    f ∈ enumFormat start ls → ∃ i l, l ∈ ls ∧ f = formatLine i l := by
  intro ls
  induction ls with
  | nil => intro start hf; simp [enumFormat] at hf
  | cons l ls ih =>
      intro start hf
      rcases List.mem_cons.mp hf with he | ht
      · exact ⟨start, l, List.mem_cons_self l ls, he⟩
      · rcases ih (start + 1) ht with ⟨i, l2, hm, he⟩
        exact ⟨i, l2, List.mem_cons_of_mem l hm, he⟩

theorem splitOnChar_no_sep : ∀ (cs acc : List Char), '\n' ∉ cs →
    splitOnChar '\n' cs acc = [acc.reverse ++ cs] := by
  intro cs
  induction cs with
  | nil => intro acc _; simp [splitOnChar]
  | cons c cs ih =>
      intro acc h
      rw [List.mem_cons] at h
      push_neg at h
      have hc : (c == '\n') = false := by
        simpa using fun he => h.1 he.symm
      simp only [splitOnChar, hc, Bool.false_eq_true, if_false]
      rw [ih (c :: acc) h.2]
      simp

theorem splitOnChar_sep_append : ∀ (a rest acc : List Char), '\n' ∉ a →
    splitOnChar '\n' (a ++ '\n' :: rest) acc
      = (acc.reverse ++ a) :: splitOnChar '\n' rest [] := by
  intro a
  induction a with
  | nil => intro rest acc _; simp [splitOnChar]
  | cons c a ih =>
      intro rest acc h
      rw [List.mem_cons] at h
      push_neg at h
      have hc : (c == '\n') = false := by
        simpa using fun he => h.1 he.symm
      have hstep : splitOnChar '\n' ((c :: a) ++ '\n' :: rest) acc
          = splitOnChar '\n' (a ++ '\n' :: rest) (c :: acc) := by
        simp [splitOnChar, hc]
      rw [hstep, ih rest (c :: acc) h.2]
      simp

theorem splitNl_joinNl : ∀ (F : List String), F ≠ [] →
    (∀ l ∈ F, '\n' ∉ l.data) → splitNl (joinNl F) = F := by
  intro F
  induction F with
  | nil => intro h _; cases h rfl
  | cons l F ih =>
      intro _ hF
      cases F with
      | nil =>
          simp only [joinNl, splitNl]
          rw [splitOnChar_no_sep l.data [] (hF l (List.mem_cons_self l []))]
          simp
      | cons l2 F2 =>
          have h1 : joinNl (l :: l2 :: F2) = l ++ "\n" ++ joinNl (l2 :: F2) := rfl
          have h2 : splitNl (l ++ "\n" ++ joinNl (l2 :: F2))
              = l :: splitNl (joinNl (l2 :: F2)) := by
            unfold splitNl
            rw [show (l ++ "\n" ++ joinNl (l2 :: F2)).data
                = l.data ++ '\n' :: (joinNl (l2 :: F2)).data by simp]
            rw [splitOnChar_sep_append _ _ [] (hF l (List.mem_cons_self l _))]
            rfl
          rw [h1, h2,
            ih (by simp) (fun x hx => hF x (List.mem_cons_of_mem l hx))]

theorem stripAllTags_read_content (C : String) :
    stripAllTags (joinNl (enumFormat 1 (pyReadlines C)))
      = joinNl ((pyReadlines C).map pyRstrip) := by
  cases hC : pyReadlines C with
  | nil => decide
  | cons l ls =>
      have hne : enumFormat 1 (l :: ls) ≠ [] := by simp [enumFormat]
      have hnonl : ∀ f ∈ enumFormat 1 (l :: ls), '\n' ∉ f.data := by
        intro f hf
        rcases mem_enumFormat f _ _ hf with ⟨i, l2, hm, he⟩
        subst he
        apply formatLine_no_newline
        show '\n' ∉ pyRstripL l2.data
        apply rstrip_no_newline_of_shape
        have hm2 : l2 ∈ pyReadlines C := hC ▸ hm
        rcases List.mem_map.mp hm2 with ⟨cs, hcs, hmk⟩
        have hsh := pyReadlinesAux_shape C.data [] (by simp) cs hcs
        rw [← hmk]
        exact hsh
      unfold stripAllTags
      rw [splitNl_joinNl _ hne hnonl, stripLineTag_enumFormat _ 1]

theorem getKey_error_response_success (e : PyException) :
    getKey (create_error_response e) "success" = Option.none := by
  cases e <;> simp [create_error_response, ToolErr.toDict, getKey, List.lookup]

theorem write_file_success_content (cfg : PermConfig) (wcfg : WriteConfig)
    (st : PermState) (fs : FS) (path content : String)
    (createBackup : Option Bool) (copyOk : Bool)
    (h : getKey (write_file cfg wcfg st fs path content createBackup copyOk).1 "success"
          = Option.some (vb true)) :
    fsGet (write_file cfg wcfg st fs path content createBackup copyOk).2.1 path
      = Option.some content := by
  by_cases hp : path = ""
  · rw [write_file, if_pos hp, getKey_error_response_success] at h
    cases h
  · rcases hc : check_file_access cfg st path "write" false with ⟨o, st2⟩
    cases o with
    | exc e =>
        rw [write_file, if_neg hp] at h
        rw [hc] at h
        rw [getKey_error_response_success] at h
        cases h
    | ok b =>
        rw [write_file, if_neg hp] at h ⊢
        rw [hc] at h ⊢
        cases hfs : fsGet fs path with
        | none => exact fsGet_fsSet_self fs path content
        | some old =>
            cases hsb : createBackup.getD wcfg.backupEnabled with
            | false => exact fsGet_fsSet_self fs path content
            | true =>
                cases copyOk with
                | false =>
                    rw [hfs, hsb] at h
                    have h2 : getKey (create_error_response (PyException.other "OSError"
                        ("Backup copy failed for " ++ path))) "success"
                        = Option.some (vb true) := h
                    rw [getKey_error_response_success] at h2
                    cases h2
                | true =>
                    exact fsGet_fsSet_self (fsSet fs (path ++ wcfg.backupSuffix) old)
                      path content

theorem readContentString_resp (path : String) (tl lr sl : Int) (c : String) :
    readContentString
      [("success", vb true), ("file_path", vs path), ("total_lines", vi tl),
       ("lines_returned", vi lr), ("start_line", vi sl), ("content", vs c)]
      = Option.some c := by
  simp [readContentString, getKey, List.lookup, vs, vb, vi]

/-- Claim C7 (amended): after a successful `write_file(P, C)`, a
`read_file(P)` with no offset or limit succeeds, and stripping the
injected line-number tags from its content yields C with each line
rstripped (trailing whitespace, including any final newline, removed) and
the lines joined by single newlines — not C itself: trailing whitespace
on a line does not survive the round trip. -/
theorem write_read_roundtrip_amended (cfg : PermConfig) (wcfg : WriteConfig)
    (rcfg : ReadConfig) (st st2 : PermState) (fs : FS)
    (path C : String) (createBackup : Option Bool) (copyOk : Bool)
    (hpath : path ≠ "")
    (hwrite : getKey (write_file cfg wcfg st fs path C createBackup copyOk).1 "success"
        = Option.some (vb true))
    (hperm : (check_file_access cfg st2 path "read" false).1 = AccessOutcome.ok true)
    (hsize : ¬(C.utf8ByteSize > rcfg.maxFileSizeMb * 1024 * 1024)) :
    (readContentString (read_file cfg rcfg st2
        (write_file cfg wcfg st fs path C createBackup copyOk).2.1
        path Option.none Option.none).1).map stripAllTags
      = Option.some (joinNl ((pyReadlines C).map pyRstrip)) := by
  have hfile := write_file_success_content cfg wcfg st fs path C createBackup copyOk hwrite
  rcases hc : check_file_access cfg st2 path "read" false with ⟨o, st3⟩
  have ho : o = AccessOutcome.ok true := by rw [hc] at hperm; exact hperm
  subst ho
  rw [read_file, if_neg hpath, hfile, hc]
  dsimp only
  rw [if_neg hsize]
  dsimp only
  rw [readContentString_resp]
  simp only [Option.map]
  exact congrArg Option.some (stripAllTags_read_content C)

/-- Witness for the amended C7: writing `"hi \nyou"` and reading it back
yields, after tag stripping, `"hi\nyou"` (the rstripped lines joined). -/
theorem write_read_roundtrip_amended_witness :
    getKey (write_file ⟨"moderate", [], [], [], []⟩ ⟨true, ".backup"⟩ ⟨[], []⟩ []
        "/v/g.txt" "hi \nyou" Option.none true).1 "success" = Option.some (vb true) ∧
    (readContentString (read_file ⟨"moderate", [], [], [], []⟩ ⟨10⟩ ⟨[], []⟩
        (write_file ⟨"moderate", [], [], [], []⟩ ⟨true, ".backup"⟩ ⟨[], []⟩ []
          "/v/g.txt" "hi \nyou" Option.none true).2.1
        "/v/g.txt" Option.none Option.none).1).map stripAllTags
      = Option.some (joinNl ((pyReadlines "hi \nyou").map pyRstrip)) :=
  ⟨by decide,
   write_read_roundtrip_amended ⟨"moderate", [], [], [], []⟩ ⟨true, ".backup"⟩ ⟨10⟩
     ⟨[], []⟩ ⟨[], []⟩ [] "/v/g.txt" "hi \nyou" Option.none true
     (by decide) (by decide) (by decide) (by decide)⟩

/-! ## Shell tools (shell_tools.py) -/

/-- Outcome of running a foreground subprocess under a timeout race. -/
inductive ProcOutcome where
  | completed (exitCode : Int) (stdout stderr : String)
  | timedOut
deriving Repr, DecidableEq

/-- `ShellTools._execute_foreground` (shell_tools.py:79-121): on
completion, a result dict whose `success` is `returncode == 0`; on
timeout, the process is killed and the raised retryable `TimeoutError`
is converted to an envelope at the inner boundary. -/
def execute_foreground (command : String) (timeout : Nat)
    (outcome : ProcOutcome) : ToolResponse :=
  match outcome with
  | ProcOutcome.timedOut =>
      create_error_response (PyException.toolErr (timeoutError
        ("Command timed out after " ++ toString timeout ++ " seconds")
        (Option.some (timeout : Int))))
  | ProcOutcome.completed ec out err =>
      [("success", vb (ec == 0)),
       ("command", vs command),
       ("exit_code", vi ec),
       ("stdout", vs out),
       ("stderr", vs err),
       ("timed_out", vb false)]

/-- A background job: still running (with its pid), or completed with
its exit code and remaining decoded stdout/stderr. -/
inductive JobState where
  | running (pid : Int)
  | completed (exitCode : Int) (stdout stderr : String)
deriving Repr, DecidableEq

/-- The `background_jobs` table. -/
def JobTable := List (String × JobState)
deriving Repr, DecidableEq

/-- Table lookup. -/
def jobGet (t : JobTable) (id : String) : Option JobState :=
  List.lookup id t

/-- `del self.background_jobs[job_id]`. -/
def jobDel (t : JobTable) (id : String) : JobTable :=
  t.filter (fun kv => kv.1 != id)

/-- `ShellTools.get_job_status` (shell_tools.py:153-197): unknown id
raises a plain `ToolError` (caught into an envelope); a running job
reports status only; a completed job reports exit code and remaining
output and is removed from the table (read-once). -/
def get_job_status (t : JobTable) (jobId : String) : ToolResponse × JobTable :=
  match jobGet t jobId with
  | Option.none =>
      (create_error_response (PyException.toolErr
        (mkToolError ("Job not found: " ++ jobId) "unknown" [] [] false Option.none)), t)
  | Option.some (JobState.running pid) =>
      ([("success", vb true), ("job_id", vs jobId),
        ("status", vs "running"), ("pid", vi pid)], t)
  | Option.some (JobState.completed ec out err) =>
      ([("success", vb (ec == 0)), ("job_id", vs jobId),
        ("status", vs "completed"), ("exit_code", vi ec),
        ("stdout", vs out), ("stderr", vs err)], jobDel t jobId)

/-- Does the mapping carry `success: true`? -/
def successTrue (r : ToolResponse) : Bool :=
  getKey r "success" == Option.some (vb true)

/-- Does the mapping match the Error Envelope shape (error: true plus the
six metadata keys)? -/
def isErrorEnvelope (r : ToolResponse) : Bool :=
  getKey r "error" == Option.some (vb true) &&
  (getKey r "error_type").isSome && (getKey r "message").isSome &&
  (getKey r "details").isSome && (getKey r "suggestions").isSome &&
  (getKey r "retryable").isSome && (getKey r "retry_strategy").isSome

/-- Does the mapping carry `success: false` together with exit-code data
(the shape bash foreground and get_job_status return for a nonzero exit
code)? -/
def exitDataResponse (r : ToolResponse) : Bool :=
  getKey r "success" == Option.some (vb false) &&
  (getKey r "exit_code").isSome &&
  (getKey r "stdout").isSome && (getKey r "stderr").isSome

/-- Counterexample for C3 as stated: a foreground bash run whose process
exits with code 1 returns a mapping that neither contains `success: true`
nor matches the Error Envelope shape — it is a result dict with
`success: false` and the exit data. -/
theorem bash_nonzero_exit_shape_cex :
    successTrue (execute_foreground "false" 120 (ProcOutcome.completed 1 "" "")) = false ∧
    isErrorEnvelope (execute_foreground "false" 120 (ProcOutcome.completed 1 "" "")) = false := by
  exact ⟨by decide, by decide⟩

/-- Claim C3 (amended): every mapping returned by bash foreground
execution or `get_job_status` either contains `success: true`, or matches
the Error Envelope shape, or — for a completed process with a nonzero
exit code — contains `success: false` together with the exit code and the
captured stdout/stderr; no raw exception crosses the tool boundary
(raised exceptions become envelopes). -/
theorem tool_response_shape_amended :
    (∀ (command : String) (timeout : Nat) (o : ProcOutcome),
        successTrue (execute_foreground command timeout o) = true ∨
        isErrorEnvelope (execute_foreground command timeout o) = true ∨
        exitDataResponse (execute_foreground command timeout o) = true) ∧
    (∀ (t : JobTable) (jobId : String),
        successTrue (get_job_status t jobId).1 = true ∨
        isErrorEnvelope (get_job_status t jobId).1 = true ∨
        exitDataResponse (get_job_status t jobId).1 = true) := by
  constructor
  · intro command timeout o
    cases o with
    | timedOut =>
        right; left
        simp [execute_foreground, isErrorEnvelope, create_error_response,
          ToolErr.toDict, timeoutError, mkToolError, getKey, List.lookup, vb]
    | completed ec out err =>
        cases he : (ec == 0) with
        | true =>
            left
            simp [execute_foreground, successTrue, getKey, List.lookup, he, vb]
        | false =>
            right; right
            simp [execute_foreground, exitDataResponse, getKey, List.lookup, he, vb]
  · intro t jobId
    rcases hj : jobGet t jobId with _ | st
    · right; left
      simp [get_job_status, hj, isErrorEnvelope, create_error_response,
        ToolErr.toDict, mkToolError, getKey, List.lookup, vb]
    · cases st with
      | running pid =>
          left
          simp [get_job_status, hj, successTrue, getKey, List.lookup, vb]
      | completed ec out err =>
          cases he : (ec == 0) with
          | true =>
              left
              simp [get_job_status, hj, successTrue, getKey, List.lookup, he, vb]
          | false =>
              right; right
              simp [get_job_status, hj, exitDataResponse, getKey, List.lookup, he, vb]

theorem jobGet_jobDel (t : JobTable) (id : String) :
    jobGet (jobDel t id) id = Option.none := by
  induction t with
  | nil => rfl
  | cons kv t ih =>
      rcases kv with ⟨k, v⟩
      by_cases hk : k = id
      · subst hk
        simpa [jobDel, List.filter] using ih
      · have hb : (k != id) = true := by simpa using hk
        have hb2 : (id == k) = false := by
          simpa using fun he => hk he.symm
        simp only [jobDel, List.filter, hb] at ih ⊢
        simpa [jobGet, List.lookup, hb2] using ih

/-- Claim C4: reading the status of a completed background job returns
its exit code and remaining stdout/stderr and removes it from the job
table, and an immediately following second query returns a non-retryable
"job not found" error envelope (read-once semantics). -/
theorem get_job_status_read_once (t : JobTable) (jobId : String)
    (ec : Int) (out err : String)
    (h : jobGet t jobId = Option.some (JobState.completed ec out err)) :
    getKey (get_job_status t jobId).1 "status" = Option.some (vs "completed") ∧
    getKey (get_job_status t jobId).1 "exit_code" = Option.some (vi ec) ∧
    getKey (get_job_status t jobId).1 "stdout" = Option.some (vs out) ∧
    getKey (get_job_status t jobId).1 "stderr" = Option.some (vs err) ∧
    jobGet (get_job_status t jobId).2 jobId = Option.none ∧
    getKey (get_job_status (get_job_status t jobId).2 jobId).1 "error"
      = Option.some (vb true) ∧
    getKey (get_job_status (get_job_status t jobId).2 jobId).1 "message"
      = Option.some (vs ("Job not found: " ++ jobId)) ∧
    getKey (get_job_status (get_job_status t jobId).2 jobId).1 "retryable"
      = Option.some (vb false) ∧
    getKey (get_job_status (get_job_status t jobId).2 jobId).1 "retry_strategy"
      = Option.some vnone := by
  have hdel : (get_job_status t jobId).2 = jobDel t jobId := by
    rw [get_job_status, h]
  have hnone : jobGet (get_job_status t jobId).2 jobId = Option.none := by
    rw [hdel]; exact jobGet_jobDel t jobId
  refine ⟨?_, ?_, ?_, ?_, hnone, ?_, ?_, ?_, ?_⟩
  · rw [get_job_status, h]; simp [getKey, List.lookup, vs]
  · rw [get_job_status, h]; simp [getKey, List.lookup, vi]
  · rw [get_job_status, h]; simp [getKey, List.lookup, vs]
  · rw [get_job_status, h]; simp [getKey, List.lookup, vs]
  · rw [get_job_status, hnone]
    simp [create_error_response, ToolErr.toDict, mkToolError, getKey, List.lookup, vb]
  · rw [get_job_status, hnone]
    simp [create_error_response, ToolErr.toDict, mkToolError, getKey, List.lookup, vs]
  · rw [get_job_status, hnone]
    simp [create_error_response, ToolErr.toDict, mkToolError, getKey, List.lookup, vb]
  · rw [get_job_status, hnone]
    simp [create_error_response, ToolErr.toDict, mkToolError, getKey, List.lookup, vnone]

/-- Witness for C4: a two-job table realizes the read-once behavior. -/
theorem get_job_status_read_once_witness :
    jobGet [("j1", JobState.completed 0 "done" ""), ("j2", JobState.running 42)] "j1"
      = Option.some (JobState.completed 0 "done" "") ∧
    (getKey (get_job_status
        [("j1", JobState.completed 0 "done" ""), ("j2", JobState.running 42)] "j1").1
        "exit_code" = Option.some (vi 0) ∧
    jobGet (get_job_status
        [("j1", JobState.completed 0 "done" ""), ("j2", JobState.running 42)] "j1").2 "j1"
      = Option.none ∧
    getKey (get_job_status (get_job_status
        [("j1", JobState.completed 0 "done" ""), ("j2", JobState.running 42)] "j1").2
        "j1").1 "message" = Option.some (vs ("Job not found: " ++ "j1"))) :=
  ⟨by decide,
   (get_job_status_read_once
      [("j1", JobState.completed 0 "done" ""), ("j2", JobState.running 42)]
      "j1" 0 "done" "" (by decide)).2.1,
   (get_job_status_read_once
      [("j1", JobState.completed 0 "done" ""), ("j2", JobState.running 42)]
      "j1" 0 "done" "" (by decide)).2.2.2.2.1,
   (get_job_status_read_once
      [("j1", JobState.completed 0 "done" ""), ("j2", JobState.running 42)]
      "j1" 0 "done" "" (by decide)).2.2.2.2.2.2.1⟩

/-! ## Error recovery system (error_recovery.py) -/

/-- The retry strategies (`RetryStrategy` enum). -/
inductive RetryStrategy where
  | request_approval
  | search_alternatives
  | fix_and_retry
  | exponential_backoff
  | increase_timeout
  | wait_and_retry
  | report_and_ask
deriving Repr, DecidableEq

/-- `RetryStrategy(name)`: the enum member for a valid name, else None
(the `ValueError` case). -/
def parseStrategy (s : String) : Option RetryStrategy :=
  if s = "request_approval" then Option.some RetryStrategy.request_approval
  else if s = "search_alternatives" then Option.some RetryStrategy.search_alternatives
  else if s = "fix_and_retry" then Option.some RetryStrategy.fix_and_retry
  else if s = "exponential_backoff" then Option.some RetryStrategy.exponential_backoff
  else if s = "increase_timeout" then Option.some RetryStrategy.increase_timeout
  else if s = "wait_and_retry" then Option.some RetryStrategy.wait_and_retry
  else if s = "report_and_ask" then Option.some RetryStrategy.report_and_ask
  else Option.none

/-- One per-error-kind entry of the `strategies` configuration table. -/
structure StrategyConf where
  action : Option String
  backoffBase : Option Nat
  backoffMax : Option Nat
deriving Repr, DecidableEq

/-- The `ErrorRecoverySystem` state: `enabled` (default true),
`max_retries` (default 3), the strategy table, and the retry ledger. -/
structure RecoverySystem where
  enabled : Bool
  maxRetries : Nat
  strategies : List (String × StrategyConf)
  retryCounts : List (String × Nat)
deriving Repr, DecidableEq

/-- `self.retry_counts.get(key, 0)`. -/
def lookupCount (counts : List (String × Nat)) (key : String) : Nat :=
  (List.lookup key counts).getD 0

/-- `ErrorRecoverySystem.should_retry` (error_recovery.py:35-56). -/
def should_retry (sys : RecoverySystem) (error : ErrInfo)
    (operationId : String) : Bool :=
  if !sys.enabled then false
  else if !error.retryable then false
  else if sys.maxRetries ≤ lookupCount sys.retryCounts operationId then false
  else true

/-- `ErrorRecoverySystem.get_retry_strategy` (error_recovery.py:58-81):
an explicit (truthy) `retry_strategy` on the error wins; otherwise the
configured per-kind `action`; a set but unrecognized name degrades to
`report_and_ask`; nothing set gives None. -/
def get_retry_strategy (sys : RecoverySystem) (error : ErrInfo) :
    Option RetryStrategy :=
  let fromError : Option String :=
    match error.retryStrategy with
    | Option.some s => if s = "" then Option.none else Option.some s
    | Option.none => Option.none
  let strategyName : Option String :=
    match fromError with
    | Option.some s => Option.some s
    | Option.none =>
        match List.lookup error.errorType sys.strategies with
        | Option.some conf =>
            (match conf.action with
             | Option.some a => if a = "" then Option.none else Option.some a
             | Option.none => Option.none)
        | Option.none => Option.none
  match strategyName with
  | Option.some s => Option.some ((parseStrategy s).getD RetryStrategy.report_and_ask)
  | Option.none => Option.none

/-- The `context` dict of `handle_error` — the keys the recovery system
reads. -/
structure Ctx where
  resource : Option String
  operation : Option String
  pattern : Option String
  operationId : Option String
  timeout : Option Nat
deriving Repr, DecidableEq

/-- Optional string value. -/
def optStr (s : Option String) : PyVal :=
  match s with
  | Option.none => vnone
  | Option.some x => vs x

/-- `ErrorRecoverySystem._execute_strategy` (error_recovery.py:124-197).
The exponential-backoff branch reads base/cap from the `network_error`
strategy configuration (defaults 2 and 30) and the retry count from the
ledger under `context.get("operation_id", "")`; the increase-timeout
branch computes `int(current_timeout * 1.5)` for the default multiplier,
written `(t * 3) / 2` (configured float multipliers are outside the
embedding's number model). -/
def execute_strategy (sys : RecoverySystem) (strategy : RetryStrategy)
    (error : ErrInfo) (ctx : Ctx) : ToolResponse :=
  match strategy with
  | RetryStrategy.request_approval =>
      [("action", vs "request_approval"),
       ("message", vs "Requesting user approval"),
       ("resource", optStr ctx.resource),
       ("operation", optStr ctx.operation),
       ("suggestions", PyVal.strs error.suggestions)]
  | RetryStrategy.search_alternatives =>
      [("action", vs "search"),
       ("message", vs "Searching for alternatives"),
       ("pattern", optStr ctx.pattern),
       ("suggestions", PyVal.strs error.suggestions)]
  | RetryStrategy.fix_and_retry =>
      [("action", vs "fix"),
       ("message", vs "Attempting to fix the issue"),
       ("error_details", PyVal.pdict error.details),
       ("suggestions", PyVal.strs error.suggestions)]
  | RetryStrategy.exponential_backoff =>
      let backoffBase := match List.lookup "network_error" sys.strategies with
                         | Option.some c => c.backoffBase.getD 2
                         | Option.none => 2
      let backoffMax := match List.lookup "network_error" sys.strategies with
                        | Option.some c => c.backoffMax.getD 30
                        | Option.none => 30
      let retryCount := lookupCount sys.retryCounts (ctx.operationId.getD "")
      let waitTime := Nat.min (backoffBase ^ retryCount) backoffMax
      [("action", vs "wait"),
       ("message", vs ("Waiting " ++ toString waitTime
         ++ "s before retry (exponential backoff)")),
       ("wait_seconds", vi waitTime)]
  | RetryStrategy.increase_timeout =>
      let currentTimeout := ctx.timeout.getD 30
      let newTimeout := (currentTimeout * 3) / 2
      [("action", vs "retry"),
       ("message", vs ("Increasing timeout to " ++ toString newTimeout ++ "s")),
       ("new_timeout", vi newTimeout)]
  | RetryStrategy.wait_and_retry =>
      let retryAfter : Int := match List.lookup "retry_after_seconds" error.details with
                              | Option.some (PyPrim.int n) => n
                              | _ => 5
      [("action", vs "wait"),
       ("message", vs ("Waiting " ++ toString retryAfter ++ "s before retry")),
       ("wait_seconds", vi retryAfter)]
  | RetryStrategy.report_and_ask =>
      [("action", vs "ask_user"),
       ("message", vs "Need user input to proceed"),
       ("error", PyVal.errval error),
       ("suggestions", PyVal.strs error.suggestions)]

/-- `ErrorRecoverySystem.handle_error` (error_recovery.py:83-122): fail
when retrying is not allowed or no strategy resolves; otherwise increment
the ledger for `operation_id`, dispatch the strategy, and annotate the
directive with the post-increment retry count. -/
def handle_error (sys : RecoverySystem) (error : ErrInfo)
    (operationId : String) (ctx : Ctx) : ToolResponse × RecoverySystem :=
  if !(should_retry sys error operationId) then
    ([("action", vs "fail"),
      ("message", vs "Maximum retries exceeded or error not retryable"),
      ("error", PyVal.errval error)], sys)
  else
    match get_retry_strategy sys error with
    | Option.none =>
        ([("action", vs "fail"),
          ("message", vs "No retry strategy available"),
          ("error", PyVal.errval error)], sys)
    | Option.some strategy =>
        let sys2 : RecoverySystem :=
          { sys with retryCounts :=
              (operationId, lookupCount sys.retryCounts operationId + 1)
                :: sys.retryCounts }
        let recovery : List (String × PyVal) := execute_strategy sys2 strategy error ctx
        (recovery ++ [("retry_count", vi (lookupCount sys2.retryCounts operationId))],
         sys2)

/-- Claim C5: a retryable error dispatched to the exponential-backoff
strategy through `handle_error` yields a `wait` directive with
`wait_seconds = min(base ^ retry_count, cap)` (defaults base 2, cap 30),
where `retry_count` is the retry ledger count for the operation at
dispatch time — the count after `handle_error` increments it, read under
the context's `operation_id` key.  Instantiating the formula:
counts 0, 1, 2, 3 give waits 1, 2, 4, 8 and count 6 clamps to 30. -/
theorem exponential_backoff_wait (sys : RecoverySystem) (error : ErrInfo)
    (operationId : String) (ctx : Ctx)
    (hen : sys.enabled = true)
    (hret : error.retryable = true)
    (hstrat : error.retryStrategy = Option.some "exponential_backoff")
    (hcount : lookupCount sys.retryCounts operationId < sys.maxRetries)
    (hconf : List.lookup "network_error" sys.strategies = Option.none)
    (hctx : ctx.operationId = Option.some operationId) :
    getKey (handle_error sys error operationId ctx).1 "action"
      = Option.some (vs "wait") ∧
    getKey (handle_error sys error operationId ctx).1 "wait_seconds"
      = Option.some (vi (Nat.min (2 ^ (lookupCount sys.retryCounts operationId + 1)) 30)) ∧
    getKey (handle_error sys error operationId ctx).1 "retry_count"
      = Option.some (vi (lookupCount sys.retryCounts operationId + 1)) := by
  have hsr : should_retry sys error operationId = true := by
    simp [should_retry, hen, hret]
    omega
  have hgs : get_retry_strategy sys error
      = Option.some RetryStrategy.exponential_backoff := by
    simp [get_retry_strategy, hstrat, parseStrategy]
  rw [handle_error, hsr]
  simp only [Bool.not_true, Bool.false_eq_true, if_false, hgs]
  refine ⟨?_, ?_, ?_⟩ <;>
    simp [execute_strategy, hconf, hctx, lookupCount, getKey, List.lookup, vs, vi]

/-- Witness for C5: with ledger count 1 for "op", the directive waits
`min(2 ^ 2, 30) = 4` seconds and reports retry count 2. -/
theorem exponential_backoff_wait_witness :
    getKey (handle_error ⟨true, 3, [], [("op", 1)]⟩
        ⟨"network_error", true, Option.some "exponential_backoff", [], []⟩
        "op" ⟨Option.none, Option.none, Option.none, Option.some "op", Option.none⟩).1
        "wait_seconds" = Option.some (vi 4) ∧
    getKey (handle_error ⟨true, 3, [], [("op", 1)]⟩
        ⟨"network_error", true, Option.some "exponential_backoff", [], []⟩
        "op" ⟨Option.none, Option.none, Option.none, Option.some "op", Option.none⟩).1
        "retry_count" = Option.some (vi 2) :=
  ⟨(exponential_backoff_wait ⟨true, 3, [], [("op", 1)]⟩
      ⟨"network_error", true, Option.some "exponential_backoff", [], []⟩
      "op" ⟨Option.none, Option.none, Option.none, Option.some "op", Option.none⟩
      (by decide) (by decide) (by decide) (by decide) (by decide) (by decide)).2.1,
   (exponential_backoff_wait ⟨true, 3, [], [("op", 1)]⟩
      ⟨"network_error", true, Option.some "exponential_backoff", [], []⟩
      "op" ⟨Option.none, Option.none, Option.none, Option.some "op", Option.none⟩
      (by decide) (by decide) (by decide) (by decide) (by decide) (by decide)).2.2⟩

/-! ## The find tool (search_tools.py find / search_recursive) -/

/-- A directory tree as `find` walks it.  File sizes and modification
times (the stat-derived `size`/`modified` entry fields) are not part of
the model. -/
inductive FSTree where
  | file (name : String)
  | dir (name : String) (children : List FSTree)

/-- `item.name`. -/
def treeName : FSTree → String
  | FSTree.file n => n
  | FSTree.dir n _ => n

/-- `item.is_file()`. -/
def treeIsFile : FSTree → Bool
  | FSTree.file _ => true
  | FSTree.dir _ _ => false

/-- `item.is_dir()`. -/
def treeIsDir : FSTree → Bool
  | FSTree.file _ => false
  | FSTree.dir _ _ => true

/-- `item.iterdir()` (empty for files). -/
def treeChildren : FSTree → List FSTree
  | FSTree.file _ => []
  | FSTree.dir _ cs => cs

/-- Glob match of a whole name against a pattern (`item.match(pattern)`
for a slash-free pattern): `*` matches any character sequence, other
characters are literal (`?`/`[...]` globs are not used by the claims and
are not modeled). -/
def globMatch : List Char → List Char → Bool
  | [], [] => true
  | [], _ :: _ => false
  | '*' :: ps, s => (List.tails s).any (fun t => globMatch ps t)
  | p :: ps, c :: cs => p == c && globMatch ps cs
  | _ :: _, [] => false

/-- The body of `SearchTools.find.search_recursive`
(search_tools.py:278-321), processing the items of one directory level.
The structure mirrors the source loop exactly: the entry guards of a
nested `search_recursive` call (the falsy-zero `max_depth` check and the
`max_results` check) are inlined at the descent site, and an early
`return` inside the loop stops the remaining siblings of that level only.
`fuel` bounds the recursion depth (any value at least the size of the
forest suffices; the entry point below supplies one). -/
def findItems : Nat → Option String → String → Option Nat → Nat →
    List FSTree → String → Nat → List (List (String × PyPrim)) →
    List (List (String × PyPrim))
  | 0, _, _, _, _, _, _, _, m => m
  | fuel + 1, ft, pattern, maxDepth, maxResults, items, base, depth, m =>
    match items with
    | [] => m
    | item :: rest =>
        let name := treeName item
        let itemPath := base ++ "/" ++ name
        if ft == Option.some "f" && !(treeIsFile item) then
          findItems fuel ft pattern maxDepth maxResults rest base depth m
        else if ft == Option.some "d" && !(treeIsDir item) then
          findItems fuel ft pattern maxDepth maxResults rest base depth m
        else if (pattern != "*") && !(globMatch pattern.data name.data) then
          if treeIsDir item then
            let m2 :=
              if (match maxDepth with
                  | Option.some d => (d != 0) && decide (depth + 1 > d)
                  | Option.none => false) then m
              else if decide (maxResults ≤ m.length) then m
              else findItems fuel ft pattern maxDepth maxResults
                     (treeChildren item) itemPath (depth + 1) m
            findItems fuel ft pattern maxDepth maxResults rest base depth m2
          else
            findItems fuel ft pattern maxDepth maxResults rest base depth m
        else
          let entry := [("path", PyPrim.str itemPath),
                        ("name", PyPrim.str name),
                        ("is_file", PyPrim.bool (treeIsFile item)),
                        ("is_dir", PyPrim.bool (treeIsDir item)),
                        ("depth", PyPrim.int depth)]
          let m2 := m ++ [entry]
          if decide (maxResults ≤ m2.length) then m2
          else if treeIsDir item then
            let m3 :=
              if (match maxDepth with
                  | Option.some d => (d != 0) && decide (depth + 1 > d)
                  | Option.none => false) then m2
              else if decide (maxResults ≤ m2.length) then m2
              else findItems fuel ft pattern maxDepth maxResults
                     (treeChildren item) itemPath (depth + 1) m2
            findItems fuel ft pattern maxDepth maxResults rest base depth m3
          else
            findItems fuel ft pattern maxDepth maxResults rest base depth m2

/-- The match list `SearchTools.find` (search_tools.py:238-334) collects:
`max_results` defaults to 1000 (`max_results or 1000`, so an explicit 0
also becomes 1000), the pattern defaults to `"*"` for a falsy `name`,
and the walk starts at the validated directory with depth 0 and no
matches.  `fuel` is an artifact of totality only: any value at least the
number of nodes of the forest reproduces the source's recursion
exactly. -/
def find_matches (fuel : Nat) (name : Option String) (fileType : Option String)
    (maxDepth : Option Nat) (maxResults0 : Option Nat)
    (root : List FSTree) (basePath : String) : List (List (String × PyPrim)) :=
  let maxResults := match maxResults0 with
                    | Option.some k => if k = 0 then 1000 else k
                    | Option.none => 1000
  let pattern := match name with
                 | Option.some n => if n = "" then "*" else n
                 | Option.none => "*"
  findItems fuel fileType pattern maxDepth maxResults root basePath 0 []

/-- Claim C9 evaluated at the failing input: in the tree
`/root/sub/target.txt`, `find` with name pattern `"target.txt"` and
`file_type="f"` returns NO matches — the type filter `continue` at
search_tools.py:288 skips the directory `sub` before the recursion at
lines 294-316 can run — while the identical call without a type filter
does locate the nested file (showing that the name filter alone recurses
into non-matching directories as the claim describes). -/
theorem find_type_filter_blocks_recursion :
    find_matches 16 (Option.some "target.txt") (Option.some "f")
        Option.none Option.none
        [FSTree.dir "sub" [FSTree.file "target.txt"]] "/root" = [] ∧
    find_matches 16 (Option.some "target.txt") Option.none
        Option.none Option.none
        [FSTree.dir "sub" [FSTree.file "target.txt"]] "/root"
      = [[("path", PyPrim.str "/root/sub/target.txt"),
          ("name", PyPrim.str "target.txt"),
          ("is_file", PyPrim.bool true),
          ("is_dir", PyPrim.bool false),
          ("depth", PyPrim.int 1)]] := by
  exact ⟨by decide, by decide⟩
